import Mathlib

/-!
# Verification of the single-flight scrape-and-cache core

Shallow embedding of the two components the specification documents:

* `src/app/libs/api_utils.py` — the `single_request_per_url` decorator
  (per-key `asyncio.Lock`, `_ongoing_requests` future map), embedded twice
  under single-process cooperative scheduling: as the small-step
  interleaving semantics `SingleFlight.step` over one RequestKey in the
  regime of fewer than 1000 distinct keys, where the lock-eviction branch
  never runs; and as the full multi-key semantics `SingleFlightEv.step`,
  which models lock objects, the insertion-ordered `_request_locks` dict
  and the eviction branch (lines 45-50: beyond 1000 entries only the
  newest 500 lock entries are kept, held locks included), under which a
  caller can reach the shared-await branch of the wrapper.
* `src/app/apis/profile_myhammer/__init__.py` — the `profile_myhammer`
  handler body (cache lookup, Apify scrape, cache write, response build),
  embedded as the pure function `MyHammer.profile_myhammer` over an
  environment that fixes the outcome of each external effect
  (`db.storage.json.get`/`put`, the Apify run) for the one call.

JSON numeric payload fields (`average_score`, `total_reviews`) are carried
as integers: the handler never computes with them, it only moves them
between records, so their carrier type is irrelevant to every property
proved here.  Timestamps are integer epoch seconds; the code stores
`datetime.isoformat()` strings and parses them back with `fromisoformat`,
which round-trips, so the embedding keeps the instant itself.
-/

namespace MyHammer

/-- One Apify dataset item as the handler reads it (`dataset_items[0]`,
accessed only through `.get("url")`, `.get("average_score")`,
`.get("total_reviews")`, `.get("reviews", [])`).  Review objects are opaque
to the handler, so they are carried as strings. -/
structure DatasetItem where
  url : Option String
  average_score : Option Int
  total_reviews : Option Int
  reviews : List String
deriving DecidableEq, Repr

/-- The JSON value `db.storage.json.put` stores for the cache key:
`{"timestamp": now().isoformat(), "data": dataset_items}`. -/
structure CacheEntry where
  timestamp : Int
  data : List DatasetItem
deriving DecidableEq, Repr

/-- Pydantic `ScrapedProfile` response model. -/
structure ScrapedProfile where
  url : String
  average_score : Option Int
  total_reviews : Option Int
  reviews : List String
deriving DecidableEq, Repr

/-- Pydantic `PaginationMeta` response model (`total_pages` and
`total_reviews` default to `None`, hence optional). -/
structure PaginationMeta where
  current_page : Int
  has_next_page : Bool
  total_pages : Option Int
  total_reviews : Option Int
deriving DecidableEq, Repr

/-- Pydantic `ScrapeResponse` response model. -/
structure ScrapeResponse where
  data : List ScrapedProfile
  message : String
  pagination : PaginationMeta
deriving DecidableEq, Repr

/-- Outcome of the Apify actor call plus dataset download for this
invocation: either the final `dataset_items` list, or the message of the
exception the SDK raised. -/
inductive FetchOutcome
  | ok (items : List DatasetItem)
  | error (msg : String)
deriving DecidableEq, Repr

/-- Environment of one handler call: the cache contents under this
key of the request and the outcome of each external effect.
`writeFailMsg = some m` means `db.storage.json.put` raises an exception
whose `str` is `m`; `none` means the write succeeds. -/
structure Env where
  store : Option CacheEntry
  readFails : Bool
  writeFailMsg : Option String
  now : Int
  apiKeyPresent : Bool
  fetch : FetchOutcome
deriving DecidableEq, Repr

/-- What the route returns: a 200 response body, or the
`HTTPException(status, detail)` that escapes the handler. -/
inductive HandlerResult
  | success (r : ScrapeResponse)
  | httpError (status : Int) (detail : String)
deriving DecidableEq, Repr

/-- Observable trace of one call: its result, whether the Apify fetch ran
(`await actor_client.call` was reached), and the cache contents for the
key afterwards. -/
structure HandlerTrace where
  result : HandlerResult
  fetchInvoked : Bool
  storeAfter : Option CacheEntry
deriving DecidableEq, Repr

/-- The freshness window `ttl = timedelta(hours=24)`, in seconds. -/
def ttlSeconds : Int := 24 * 60 * 60

/-- The `ScrapedProfile(...)` construction used identically on the cache
path and the fresh path: `url=scraped_data.get("url", request.url)` etc. -/
def mkProfile (requestUrl : String) (item : DatasetItem) : ScrapedProfile :=
  { url := item.url.getD requestUrl
    average_score := item.average_score
    total_reviews := item.total_reviews
    reviews := item.reviews }

/-- Prefix of the detail string built by the blanket
`except Exception as e: raise HTTPException(500, f"An error occurred during scraping: {str(e)}")`. -/
def errHead : String := "An error occurred during scraping: "

/-- Section 1 of the handler (`# 1. Try returning from cache`): `some resp`
when the cache path returns a response; `none` when it falls through to the
scrape — because the read raised (swallowed by `except Exception: pass`),
the key was never written, the entry is stale (`now - ts < ttl` fails), or
the cached `data` list is empty (`if cached_data and len(cached_data) > 0`
fails). -/
def cacheLookup (requestUrl : String) (env : Env) : Option ScrapeResponse :=
  if env.readFails then none
  else
    match env.store with
    | none => none
    | some entry =>
      if env.now - entry.timestamp < ttlSeconds then
        match entry.data with
        | [] => none
        | item :: _ =>
          some
            { data := [mkProfile requestUrl item]
              message := "Data retrieved from cache."
              pagination :=
                { current_page := 1
                  has_next_page := false
                  total_pages := some 1
                  -- `scraped_data.get("total_reviews") or len(all_reviews)`:
                  -- Python `or` falls through on both None and 0.
                  total_reviews :=
                    match item.total_reviews with
                    | some n =>
                        if n = 0 then some (item.reviews.length : Int) else some n
                    | none => some (item.reviews.length : Int) } }
      else none

/-- Section 2 of the handler (`# 2. Scrape using Apify` and
`# 3. Cache results`), reached whenever the cache path fell through.  The
whole section sits in one `try` whose `except Exception` wraps any raise
into `HTTPException(500, errHead + str(e))`, including the
`HTTPException` raised for a missing API key, a raising
`db.storage.json.put`, and the `NameError` hit when `dataset_items` is
empty (the `response_data` line reads `scraped_data`, which is only bound
inside `if dataset_items and len(dataset_items) > 0`). -/
def scrapeAndCache (requestUrl : String) (env : Env) : HandlerTrace :=
  if env.apiKeyPresent = false then
    { result := .httpError 500 (errHead ++ "500: Apify API key is not configured.")
      fetchInvoked := false
      storeAfter := env.store }
  else
    match env.fetch with
    | .error msg =>
        { result := .httpError 500 (errHead ++ msg)
          fetchInvoked := true
          storeAfter := env.store }
    | .ok items =>
        -- `pagination_meta` is built before the cache write; with the typed
        -- fields of this embedding its construction cannot raise, and its
        -- value only surfaces on the success branch below.
        match env.writeFailMsg with
        | some m =>
            { result := .httpError 500 (errHead ++ m)
              fetchInvoked := true
              storeAfter := env.store }
        | none =>
            let newStore : Option CacheEntry := some { timestamp := env.now, data := items }
            match items with
            | [] =>
                -- `response_data = [ScrapedProfile(url=scraped_data.get(...)`
                -- raises NameError: `scraped_data` was never bound.
                { result := .httpError 500 (errHead ++ "name \x27scraped_data\x27 is not defined")
                  fetchInvoked := true
                  storeAfter := newStore }
            | item :: _ =>
                { result := .success
                    { data := [mkProfile requestUrl item]
                      message :=
                        if item.reviews ≠ [] then "Data scraped successfully."
                        else "No data found, but request was cached."
                      pagination :=
                        { current_page := 1
                          has_next_page := false
                          total_pages := some 1
                          -- `scraped_data.get("total_reviews") if dataset_items
                          -- else len(all_reviews)`; dataset_items is non-empty here.
                          total_reviews := item.total_reviews } }
                  fetchInvoked := true
                  storeAfter := newStore }

/-- The `profile_myhammer` handler body for one call under environment
`env`: try the cache, otherwise scrape, cache and respond. -/
def profile_myhammer (requestUrl : String) (env : Env) : HandlerTrace :=
  match cacheLookup requestUrl env with
  | some resp =>
      { result := .success resp, fetchInvoked := false, storeAfter := env.store }
  | none => scrapeAndCache requestUrl env

/-- Projection: the `data` field of a 200 response, when the result is one. -/
def resultData : HandlerResult → Option (List ScrapedProfile)
  | .success r => some r.data
  | .httpError _ _ => none

end MyHammer

namespace SingleFlight

/-!
Small-step semantics of the `wrapper` coroutine in `single_request_per_url`
for callers sharing one RequestKey, under the single-threaded asyncio
cooperative scheduling.  Code between suspension points executes
atomically; the suspension points of the wrapper are the lock acquisition
(`async with _request_locks[cache_key]`) and the two awaits on a future.
The lock-existence check and creation (lines 25-26), and the
in-flight-map check plus `create_task` plus registration (lines 31-37),
contain no `await`, so each belongs to the atomic block that follows the
preceding suspension point.  Distinct keys use distinct dictionary entries
and never interact (below the 1000-key lock-eviction threshold), so the
state tracks one key: its lock, its `_ongoing_requests` entry, and the
futures created for it.  Tasks are identified by naturals; every task is a
caller for this key and starts before the lock, about to acquire. -/

/-- Result of one invocation of the wrapped coroutine `func`: the value it
returns or the error it raises (both opaque). -/
inductive Outcome
  | ok (v : Nat)
  | err (e : Nat)
deriving DecidableEq, Repr

/-- Control point of one caller inside the wrapper.
`awaitingOwn f`: registered future `f` in `_ongoing_requests` and suspended
on `await request_future`, still holding the lock.
`awaitingShared f`: found future `f` already registered and suspended on
`return await _ongoing_requests[cache_key]`, still holding the lock.
`done o`: the wrapper returned or raised `o`. -/
inductive TaskPC
  | acquiring
  | awaitingOwn (f : Nat)
  | awaitingShared (f : Nat)
  | done (o : Outcome)
deriving DecidableEq, Repr

/-- Global state for the one key: the control point of each caller, the
holder of the `asyncio.Lock` of the key, its `_ongoing_requests` entry, the
number of invocations of `func` so far (futures `0..futCount-1`), and
which futures have completed. -/
structure SFState where
  task : Nat → TaskPC
  lockHeld : Option Nat
  ongoing : Option Nat
  futCount : Nat
  futDone : Nat → Bool

/-- All callers are about to acquire the lock; no invocation has begun. -/
def initState : SFState :=
  { task := fun _ => .acquiring
    lockHeld := none
    ongoing := none
    futCount := 0
    futDone := fun _ => false }

/-- Scheduler events.  `acquire t`: the lock is free and `t` takes it,
immediately running the check-and-register block (no suspension between
acquiring and registering).  `completeFuture f`: the invocation behind
future `f` finishes.  `resumeOwn t` / `resumeShared t`: the event loop
resumes `t` after the future it awaits completed; the registrant pops the
in-flight entry in its `finally`, and each releases the lock on the way
out. -/
inductive Action
  | acquire (t : Nat)
  | completeFuture (f : Nat)
  | resumeOwn (t : Nat)
  | resumeShared (t : Nat)
deriving DecidableEq, Repr

/-- One scheduler event; a disabled event leaves the state unchanged.
`oracle f` is the outcome of invocation `f` of the wrapped coroutine. -/
def step (oracle : Nat → Outcome) (s : SFState) (a : Action) : SFState :=
  match a with
  | .acquire t =>
      if s.task t = .acquiring ∧ s.lockHeld = none then
        match s.ongoing with
        | some f =>
            -- `if cache_key in _ongoing_requests: return await _ongoing_requests[cache_key]`
            { s with lockHeld := some t
                     task := Function.update s.task t (.awaitingShared f) }
        | none =>
            -- `request_future = asyncio.create_task(func(...));`
            -- `_ongoing_requests[cache_key] = request_future; await request_future`
            { s with lockHeld := some t
                     ongoing := some s.futCount
                     futCount := s.futCount + 1
                     task := Function.update s.task t (.awaitingOwn s.futCount) }
      else s
  | .completeFuture f =>
      if f < s.futCount ∧ s.futDone f = false then
        { s with futDone := Function.update s.futDone f true }
      else s
  | .resumeOwn t =>
      match s.task t with
      | .awaitingOwn f =>
          if s.lockHeld = some t ∧ s.futDone f = true then
            -- `finally: _ongoing_requests.pop(cache_key, None)`, then the
            -- `async with` releases the lock and the wrapper returns/raises.
            { s with lockHeld := none
                     ongoing := none
                     task := Function.update s.task t (.done (oracle f)) }
          else s
      | _ => s
  | .resumeShared t =>
      match s.task t with
      | .awaitingShared f =>
          if s.lockHeld = some t ∧ s.futDone f = true then
            { s with lockHeld := none
                     task := Function.update s.task t (.done (oracle f)) }
          else s
      | _ => s

/-- State after a finite schedule of events. -/
def runActions (oracle : Nat → Outcome) (acts : List Action) : SFState :=
  acts.foldl (step oracle) initState

/-- Future `f` was created and its invocation has not finished: an upstream
fetch in flight. -/
def InFlight (s : SFState) (f : Nat) : Prop :=
  f < s.futCount ∧ s.futDone f = false

instance (s : SFState) (f : Nat) : Decidable (InFlight s f) := by
  unfold InFlight; infer_instance

/-- Inductive invariant of the single-flight state.
`own_lock`: a registrant suspended on its own future holds the lock, its
future is the registered entry, and that future exists.
`no_shared`: no caller ever reaches the `await _ongoing_requests[...]`
branch (the lock is held for the whole critical section, so the entry is
always gone before the lock is free again).
`ongoing_live`: a registered entry always belongs to a caller still
suspended on it — never to a completed call.
`running_live`: every in-flight invocation has its registrant still
suspended on it. -/
structure Inv (s : SFState) : Prop where
  own_lock : ∀ t f, s.task t = .awaitingOwn f →
    s.lockHeld = some t ∧ s.ongoing = some f ∧ f < s.futCount
  no_shared : ∀ t f, s.task t ≠ .awaitingShared f
  ongoing_live : ∀ f, s.ongoing = some f → ∃ t, s.task t = .awaitingOwn f
  running_live : ∀ f, f < s.futCount → s.futDone f = false →
    ∃ t, s.task t = .awaitingOwn f

theorem inv_init : Inv initState := by
  constructor
  · intro t f hf; exact TaskPC.noConfusion hf
  · intro t f hf; exact TaskPC.noConfusion hf
  · intro f hf; exact Option.noConfusion hf
  · intro f hf _; exact absurd hf (Nat.not_lt_zero f)

theorem inv_step (oracle : Nat → Outcome) (s : SFState) (a : Action)
    (h : Inv s) : Inv (step oracle s a) := by
  cases a with
  | acquire t =>
    simp only [step]
    by_cases hc : s.task t = .acquiring ∧ s.lockHeld = none
    · rw [if_pos hc]
      obtain ⟨htask, hlock⟩ := hc
      cases hong : s.ongoing with
      | some f =>
        exfalso
        obtain ⟨t', ht'⟩ := h.ongoing_live f hong
        have hl := (h.own_lock t' f ht').1
        rw [hlock] at hl
        exact Option.noConfusion hl
      | none =>
        constructor
        · intro t' f' hf'
          dsimp only at hf' ⊢
          by_cases he : t' = t
          · subst he
            rw [Function.update_same] at hf'
            injection hf' with hfc
            subst hfc
            exact ⟨rfl, rfl, Nat.lt_succ_self _⟩
          · rw [Function.update_noteq he] at hf'
            have hl := (h.own_lock t' f' hf').1
            rw [hlock] at hl
            exact Option.noConfusion hl
        · intro t' f' hf'
          dsimp only at hf'
          by_cases he : t' = t
          · subst he
            rw [Function.update_same] at hf'
            exact TaskPC.noConfusion hf'
          · rw [Function.update_noteq he] at hf'
            exact h.no_shared t' f' hf'
        · intro f' hf'
          dsimp only at hf' ⊢
          injection hf' with hfc
          subst hfc
          exact ⟨t, by rw [Function.update_same]⟩
        · intro f' hlt hdone
          dsimp only at hlt hdone ⊢
          rcases Nat.lt_succ_iff_lt_or_eq.mp hlt with hlt' | heq
          · exfalso
            obtain ⟨t'', ht''⟩ := h.running_live f' hlt' hdone
            have hl := (h.own_lock t'' f' ht'').1
            rw [hlock] at hl
            exact Option.noConfusion hl
          · subst heq
            exact ⟨t, by rw [Function.update_same]⟩
    · rw [if_neg hc]; exact h
  | completeFuture f =>
    simp only [step]
    by_cases hc : f < s.futCount ∧ s.futDone f = false
    · rw [if_pos hc]
      constructor
      · intro t' f' hf'
        dsimp only at hf' ⊢
        exact h.own_lock t' f' hf'
      · intro t' f' hf'
        dsimp only at hf'
        exact h.no_shared t' f' hf'
      · intro f' hf'
        dsimp only at hf' ⊢
        exact h.ongoing_live f' hf'
      · intro f' hlt hdone
        dsimp only at hlt hdone ⊢
        by_cases he : f' = f
        · subst he
          rw [Function.update_same] at hdone
          exact Bool.noConfusion hdone
        · rw [Function.update_noteq he] at hdone
          exact h.running_live f' hlt hdone
    · rw [if_neg hc]; exact h
  | resumeOwn t =>
    simp only [step]
    cases htask : s.task t with
    | acquiring => exact h
    | awaitingShared f => exact absurd htask (h.no_shared t f)
    | done o => exact h
    | awaitingOwn f =>
      dsimp only
      by_cases hc : s.lockHeld = some t ∧ s.futDone f = true
      · rw [if_pos hc]
        obtain ⟨hlock, hdone⟩ := hc
        constructor
        · intro t' f' hf'
          dsimp only at hf'
          by_cases he : t' = t
          · subst he
            rw [Function.update_same] at hf'
            exact TaskPC.noConfusion hf'
          · rw [Function.update_noteq he] at hf'
            exfalso
            have hl := (h.own_lock t' f' hf').1
            rw [hlock] at hl
            injection hl with hl
            exact he hl.symm
        · intro t' f' hf'
          dsimp only at hf'
          by_cases he : t' = t
          · subst he
            rw [Function.update_same] at hf'
            exact TaskPC.noConfusion hf'
          · rw [Function.update_noteq he] at hf'
            exact h.no_shared t' f' hf'
        · intro f' hf'
          dsimp only at hf'
          exact Option.noConfusion hf'
        · intro f' hlt hdone'
          dsimp only at hlt hdone' ⊢
          obtain ⟨t'', ht''⟩ := h.running_live f' hlt hdone'
          by_cases he : t'' = t
          · exfalso
            subst he
            rw [htask] at ht''
            injection ht'' with hfc
            subst hfc
            exact Bool.noConfusion (hdone'.symm.trans hdone)
          · exact ⟨t'', by rw [Function.update_noteq he]; exact ht''⟩
      · rw [if_neg hc]; exact h
  | resumeShared t =>
    simp only [step]
    cases htask : s.task t with
    | acquiring => exact h
    | awaitingOwn f => exact h
    | done o => exact h
    | awaitingShared f => exact absurd htask (h.no_shared t f)

theorem inv_foldl (oracle : Nat → Outcome) (acts : List Action) (s : SFState)
    (h : Inv s) : Inv (acts.foldl (step oracle) s) := by
  induction acts generalizing s with
  | nil => exact h
  | cons a as ih => exact ih _ (inv_step oracle s a h)

theorem inv_run (oracle : Nat → Outcome) (acts : List Action) :
    Inv (runActions oracle acts) :=
  inv_foldl oracle acts initState inv_init

end SingleFlight

namespace SingleFlight

/-- Outcome oracle for concrete schedules: every invocation succeeds with
the same value. -/
def oracleOk : Nat → Outcome := fun _ => .ok 5

/-- Outcome oracle for concrete schedules: invocation 0 raises, every
later invocation succeeds. -/
def oracleErrThenOk : Nat → Outcome := fun f => if f = 0 then .err 7 else .ok 3

/-- A genuine asyncio schedule for two callers that arrive concurrently for
the same key: caller 0 takes the lock and registers invocation 0; the
invocation finishes; caller 0 resumes (its `finally` pops the in-flight
entry, the `async with` releases the lock); only then can caller 1 — which
was blocked on the lock the whole time invocation 0 was in flight — enter
the critical section, where it finds no in-flight entry and registers a
second invocation. -/
def serialTrace : List Action :=
  [.acquire 0, .completeFuture 0, .resumeOwn 0,
   .acquire 1, .completeFuture 1, .resumeOwn 1]

end SingleFlight

/-- C1: the single-flight dedup claim fails on the code.  Two callers with
the same RequestKey are concurrent (caller 1 is inside the wrapper, blocked
on the per-key lock, for the whole time invocation 0 is in flight), yet
after the schedule completes the wrapped operation has been invoked twice
(`futCount = 2`), not "exactly once": the wrapper holds the lock across
`await request_future` and pops the `_ongoing_requests` entry before
releasing it, so a later caller never finds an in-flight entry and always
re-invokes the operation. -/
theorem single_flight_dedup_violated :
    (SingleFlight.runActions SingleFlight.oracleOk SingleFlight.serialTrace).futCount = 2 ∧
    (SingleFlight.runActions SingleFlight.oracleOk SingleFlight.serialTrace).task 0 =
      .done (.ok 5) ∧
    (SingleFlight.runActions SingleFlight.oracleOk SingleFlight.serialTrace).task 1 =
      .done (.ok 5) := by
  decide

/-- C4 counterexample: the upstream operation of caller 0 raises, but the
concurrent caller 1 (blocked on the per-key lock during invocation 0) does
not receive that error: it re-invokes the operation and its own invocation
succeeds, so it completes with a success while caller 0 completes with the
error — refuting "every concurrent waiter for that key receives an
equivalent error". -/
theorem error_fanout_counterexample :
    (SingleFlight.runActions SingleFlight.oracleErrThenOk SingleFlight.serialTrace).task 0 =
      .done (.err 7) ∧
    (SingleFlight.runActions SingleFlight.oracleErrThenOk SingleFlight.serialTrace).task 1 =
      .done (.ok 3) := by
  decide

/-- C6: in every reachable state at most one invocation of the wrapped
operation per RequestKey is in flight — any two in-flight futures for the
key coincide.  The existence check on `_ongoing_requests` and the
registration of the new future execute in the single atomic block that
follows lock acquisition (the `acquire` step; lines 31-37 contain no
`await`), so two callers never race to register for the same key. -/
theorem at_most_one_inflight_fetch (oracle : Nat → SingleFlight.Outcome)
    (acts : List SingleFlight.Action) (f g : Nat)
    (hf : SingleFlight.InFlight (SingleFlight.runActions oracle acts) f)
    (hg : SingleFlight.InFlight (SingleFlight.runActions oracle acts) g) :
    f = g := by
  obtain ⟨t1, ht1⟩ := (SingleFlight.inv_run oracle acts).running_live f hf.1 hf.2
  obtain ⟨t2, ht2⟩ := (SingleFlight.inv_run oracle acts).running_live g hg.1 hg.2
  have l1 := ((SingleFlight.inv_run oracle acts).own_lock t1 f ht1).1
  have l2 := ((SingleFlight.inv_run oracle acts).own_lock t2 g ht2).1
  have htt : t1 = t2 := by
    have := l1.symm.trans l2
    exact Option.some.inj this
  subst htt
  rw [ht1] at ht2
  exact SingleFlight.TaskPC.awaitingOwn.inj ht2

theorem at_most_one_inflight_fetch_witness :
    SingleFlight.InFlight (SingleFlight.runActions SingleFlight.oracleOk [.acquire 0]) 0 ∧
    (0 : Nat) = 0 :=
  ⟨by decide,
   at_most_one_inflight_fetch SingleFlight.oracleOk [.acquire 0] 0 0
     (by decide) (by decide)⟩

namespace MyHammer

/-- Helper: when the API key is configured, the scrape section always
reaches `await actor_client.call`, whatever the outcome. -/
theorem scrapeAndCache_invokes (url : String) (env : Env)
    (hkey : env.apiKeyPresent = true) :
    (scrapeAndCache url env).fetchInvoked = true := by
  unfold scrapeAndCache
  rw [hkey]
  cases hf : env.fetch with
  | error m => simp
  | ok items =>
    cases hw : env.writeFailMsg with
    | some m => simp
    | none => cases items <;> simp

/-- Helper: a stale entry (or a raising read) makes the cache path fall
through. -/
theorem cacheLookup_stale (url : String) (env : Env) (entry : CacheEntry)
    (hstore : env.store = some entry)
    (hstale : ttlSeconds ≤ env.now - entry.timestamp) :
    cacheLookup url env = none := by
  unfold cacheLookup
  split
  · rfl
  · rw [hstore]
    dsimp only
    rw [if_neg (not_lt.mpr hstale)]

/-- Helper: a successful fetch with a successful write stores
`{"timestamp": now, "data": dataset_items}` and reports the invocation. -/
theorem scrapeAndCache_ok_trace (url : String) (env : Env)
    (items : List DatasetItem)
    (hkey : env.apiKeyPresent = true)
    (hfetch : env.fetch = .ok items)
    (hwrite : env.writeFailMsg = none) :
    (scrapeAndCache url env).fetchInvoked = true ∧
    (scrapeAndCache url env).storeAfter = some { timestamp := env.now, data := items } := by
  unfold scrapeAndCache
  rw [hkey, hfetch, hwrite]
  cases items <;> simp

end MyHammer

/-- C2: a call whose only CacheEntry is at least 24 hours old does invoke
the upstream fetch again, and (the fetch and the cache write succeeding,
with the API key configured — the normal operation the spec sentence
describes) overwrites the CacheEntry with the fresh timestamp and the new
dataset payload. -/
theorem stale_cache_refetches_and_overwrites (url : String) (env : MyHammer.Env)
    (entry : MyHammer.CacheEntry) (items : List MyHammer.DatasetItem)
    (hstore : env.store = some entry)
    (hstale : MyHammer.ttlSeconds ≤ env.now - entry.timestamp)
    (hkey : env.apiKeyPresent = true)
    (hfetch : env.fetch = .ok items)
    (hwrite : env.writeFailMsg = none) :
    (MyHammer.profile_myhammer url env).fetchInvoked = true ∧
    (MyHammer.profile_myhammer url env).storeAfter =
      some { timestamp := env.now, data := items } := by
  unfold MyHammer.profile_myhammer
  rw [MyHammer.cacheLookup_stale url env entry hstore hstale]
  exact MyHammer.scrapeAndCache_ok_trace url env items hkey hfetch hwrite

theorem stale_cache_refetches_and_overwrites_witness :
    (MyHammer.profile_myhammer "https://www.my-hammer.de/auftragnehmer/x"
      { store := some { timestamp := 0, data := [] }
        readFails := false
        writeFailMsg := none
        now := 90000
        apiKeyPresent := true
        fetch := .ok [{ url := some "https://www.my-hammer.de/auftragnehmer/x"
                        average_score := some 5
                        total_reviews := some 1
                        reviews := ["good"] }] }).fetchInvoked = true ∧
    (MyHammer.profile_myhammer "https://www.my-hammer.de/auftragnehmer/x"
      { store := some { timestamp := 0, data := [] }
        readFails := false
        writeFailMsg := none
        now := 90000
        apiKeyPresent := true
        fetch := .ok [{ url := some "https://www.my-hammer.de/auftragnehmer/x"
                        average_score := some 5
                        total_reviews := some 1
                        reviews := ["good"] }] }).storeAfter =
      some { timestamp := 90000
             data := [{ url := some "https://www.my-hammer.de/auftragnehmer/x"
                        average_score := some 5
                        total_reviews := some 1
                        reviews := ["good"] }] } :=
  stale_cache_refetches_and_overwrites _ _ { timestamp := 0, data := [] } _
    rfl (by decide) rfl rfl rfl

/-- C9: even a fresh CacheEntry (younger than 24 hours) is not served when
its cached `data` list is empty — `if cached_data and len(cached_data) > 0`
fails, the handler falls through and performs a fresh upstream fetch.
Freshness alone does not suffice for a cache hit. -/
theorem fresh_empty_cache_still_fetches (url : String) (env : MyHammer.Env)
    (ts : Int)
    (hstore : env.store = some { timestamp := ts, data := [] })
    (hfresh : env.now - ts < MyHammer.ttlSeconds)
    (hkey : env.apiKeyPresent = true) :
    (MyHammer.profile_myhammer url env).fetchInvoked = true := by
  have hcl : MyHammer.cacheLookup url env = none := by
    unfold MyHammer.cacheLookup
    split
    · rfl
    · rw [hstore]
      dsimp only
      rw [if_pos hfresh]
  unfold MyHammer.profile_myhammer
  rw [hcl]
  exact MyHammer.scrapeAndCache_invokes url env hkey

theorem fresh_empty_cache_still_fetches_witness :
    (MyHammer.profile_myhammer "u"
      { store := some { timestamp := 100, data := [] }
        readFails := false
        writeFailMsg := none
        now := 200
        apiKeyPresent := true
        fetch := .ok [] }).fetchInvoked = true :=
  fresh_empty_cache_still_fetches "u" _ 100 rfl (by decide) rfl

/-- C10: when the Apify run completes with zero dataset items (and the
cache path missed), the handler first writes a CacheEntry whose `data` is
the empty list, and then fails with a 500: the `response_data` line reads
`scraped_data`, bound only under `if dataset_items and len(dataset_items) > 0`,
so a NameError is raised after the `db.storage.json.put` and the blanket
`except` maps it to HTTPException 500.  One and the same call both writes
the cache and fails. -/
theorem empty_dataset_caches_then_500 (url : String) (env : MyHammer.Env)
    (hcl : MyHammer.cacheLookup url env = none)
    (hkey : env.apiKeyPresent = true)
    (hfetch : env.fetch = .ok [])
    (hwrite : env.writeFailMsg = none) :
    (MyHammer.profile_myhammer url env).storeAfter =
      some { timestamp := env.now, data := [] } ∧
    (MyHammer.profile_myhammer url env).result =
      .httpError 500 (MyHammer.errHead ++ "name \x27scraped_data\x27 is not defined") := by
  unfold MyHammer.profile_myhammer
  rw [hcl]
  unfold MyHammer.scrapeAndCache
  rw [hkey, hfetch, hwrite]
  simp

theorem empty_dataset_caches_then_500_witness :
    (MyHammer.profile_myhammer "u"
      { store := none
        readFails := false
        writeFailMsg := none
        now := 50
        apiKeyPresent := true
        fetch := .ok [] }).storeAfter = some { timestamp := 50, data := [] } ∧
    (MyHammer.profile_myhammer "u"
      { store := none
        readFails := false
        writeFailMsg := none
        now := 50
        apiKeyPresent := true
        fetch := .ok [] }).result =
      .httpError 500 (MyHammer.errHead ++ "name \x27scraped_data\x27 is not defined") :=
  empty_dataset_caches_then_500 "u" _ rfl rfl rfl rfl

/-- C4 (amended): when the upstream fetch raises, that error reaches the
caller as a 500-class failure (the blanket `except` wraps it into
HTTPException 500 carrying the message), and no CacheEntry is written —
`db.storage.json.put` sits after the fetch and is never reached.
(The original fan-out clause — every concurrent waiter receives an
equivalent error — fails on the code; see the counterexample: a concurrent
caller re-invokes the operation and receives the outcome of its own
invocation instead.) -/
theorem upstream_error_500_no_cache_write (url : String) (env : MyHammer.Env)
    (msg : String)
    (hcl : MyHammer.cacheLookup url env = none)
    (hkey : env.apiKeyPresent = true)
    (hfetch : env.fetch = .error msg) :
    (MyHammer.profile_myhammer url env).result =
      .httpError 500 (MyHammer.errHead ++ msg) ∧
    (MyHammer.profile_myhammer url env).storeAfter = env.store ∧
    (MyHammer.profile_myhammer url env).fetchInvoked = true := by
  unfold MyHammer.profile_myhammer
  rw [hcl]
  unfold MyHammer.scrapeAndCache
  rw [hkey, hfetch]
  simp

theorem upstream_error_500_no_cache_write_witness :
    (MyHammer.profile_myhammer "u"
      { store := none
        readFails := false
        writeFailMsg := none
        now := 0
        apiKeyPresent := true
        fetch := .error "actor run failed" }).result =
      .httpError 500 (MyHammer.errHead ++ "actor run failed") ∧
    (MyHammer.profile_myhammer "u"
      { store := none
        readFails := false
        writeFailMsg := none
        now := 0
        apiKeyPresent := true
        fetch := .error "actor run failed" }).storeAfter = none ∧
    (MyHammer.profile_myhammer "u"
      { store := none
        readFails := false
        writeFailMsg := none
        now := 0
        apiKeyPresent := true
        fetch := .error "actor run failed" }).fetchInvoked = true :=
  upstream_error_500_no_cache_write "u" _ "actor run failed" rfl rfl rfl

namespace MyHammer

/-- Helper: the scrape section never reads the cache contents or the
read-failure flag; only the `storeAfter` pass-through on non-writing paths
mentions the store.  So its result and invocation flag are unchanged under
any store/readFails replacement. -/
theorem scrapeAndCache_store_irrelevant (url : String) (env : Env)
    (s' : Option CacheEntry) (b : Bool) :
    (scrapeAndCache url { env with store := s', readFails := b }).result =
      (scrapeAndCache url env).result ∧
    (scrapeAndCache url { env with store := s', readFails := b }).fetchInvoked =
      (scrapeAndCache url env).fetchInvoked := by
  unfold scrapeAndCache
  cases hk : env.apiKeyPresent with
  | false => simp
  | true =>
    simp only [hk]
    cases hf : env.fetch with
    | error m => simp
    | ok items =>
      cases hw : env.writeFailMsg with
      | some m => simp
      | none => cases items <;> simp

end MyHammer

/-- C7: a raising cache read, and a key never written, are both treated
exactly as a cache miss: the call produces the same result and the same
invocation behavior as a call whose key has no entry and whose read
succeeds, the upstream fetch is performed (API key configured), and the
read failure itself never surfaces as a request error. -/
theorem cache_read_failure_is_miss (url : String) (env : MyHammer.Env)
    (h : env.readFails = true ∨ env.store = none) :
    (MyHammer.profile_myhammer url env).result =
      (MyHammer.profile_myhammer url
        { env with store := none, readFails := false }).result ∧
    (MyHammer.profile_myhammer url env).fetchInvoked =
      (MyHammer.profile_myhammer url
        { env with store := none, readFails := false }).fetchInvoked ∧
    (env.apiKeyPresent = true →
      (MyHammer.profile_myhammer url env).fetchInvoked = true) := by
  have hcl : MyHammer.cacheLookup url env = none := by
    unfold MyHammer.cacheLookup
    rcases h with h | h
    · rw [if_pos h]
    · split
      · rfl
      · rw [h]
  have hclm : MyHammer.cacheLookup url
      { env with store := none, readFails := false } = none := by
    unfold MyHammer.cacheLookup
    simp
  unfold MyHammer.profile_myhammer
  rw [hcl, hclm]
  obtain ⟨hr, hi⟩ :=
    MyHammer.scrapeAndCache_store_irrelevant url env none false
  refine ⟨hr.symm, hi.symm, fun hkey => ?_⟩
  exact MyHammer.scrapeAndCache_invokes url env hkey

theorem cache_read_failure_is_miss_witness :
    (MyHammer.profile_myhammer "u"
      { store := some { timestamp := 0, data := [] }
        readFails := true
        writeFailMsg := none
        now := 10
        apiKeyPresent := true
        fetch := .ok [] }).result =
      (MyHammer.profile_myhammer "u"
        { store := none
          readFails := false
          writeFailMsg := none
          now := 10
          apiKeyPresent := true
          fetch := .ok [] }).result ∧
    (MyHammer.profile_myhammer "u"
      { store := some { timestamp := 0, data := [] }
        readFails := true
        writeFailMsg := none
        now := 10
        apiKeyPresent := true
        fetch := .ok [] }).fetchInvoked =
      (MyHammer.profile_myhammer "u"
        { store := none
          readFails := false
          writeFailMsg := none
          now := 10
          apiKeyPresent := true
          fetch := .ok [] }).fetchInvoked ∧
    ((true : Bool) = true →
      (MyHammer.profile_myhammer "u"
        { store := some { timestamp := 0, data := [] }
          readFails := true
          writeFailMsg := none
          now := 10
          apiKeyPresent := true
          fetch := .ok [] }).fetchInvoked = true) :=
  cache_read_failure_is_miss "u" _ (Or.inl rfl)

/-- C8 counterexample: the upstream fetch succeeds (one dataset item with
two reviews) but `db.storage.json.put` raises; the claim says the write
failure is swallowed and the fetched payload is still returned, yet the
call fails with a 500 — the put sits inside the blanket `try` of the
scrape section, whose `except Exception` turns it into an HTTPException. -/
theorem cache_write_failure_fails_request :
    (MyHammer.profile_myhammer "u"
      { store := none
        readFails := false
        writeFailMsg := some "storage backend unavailable"
        now := 0
        apiKeyPresent := true
        fetch := .ok [{ url := some "u"
                        average_score := some 4
                        total_reviews := some 2
                        reviews := ["a", "b"] }] }).fetchInvoked = true ∧
    (MyHammer.profile_myhammer "u"
      { store := none
        readFails := false
        writeFailMsg := some "storage backend unavailable"
        now := 0
        apiKeyPresent := true
        fetch := .ok [{ url := some "u"
                        average_score := some 4
                        total_reviews := some 2
                        reviews := ["a", "b"] }] }).result =
      .httpError 500 (MyHammer.errHead ++ "storage backend unavailable") := by
  decide

/-- C8 (amended): when the upstream fetch succeeds but the cache write
raises, the exception is NOT swallowed: it propagates to the blanket
`except` and the call fails with a 500 carrying the write error message;
the store keeps its previous contents and the fetched payload is not
returned. -/
theorem cache_write_failure_propagates_500 (url : String) (env : MyHammer.Env)
    (items : List MyHammer.DatasetItem) (m : String)
    (hcl : MyHammer.cacheLookup url env = none)
    (hkey : env.apiKeyPresent = true)
    (hfetch : env.fetch = .ok items)
    (hwrite : env.writeFailMsg = some m) :
    (MyHammer.profile_myhammer url env).result =
      .httpError 500 (MyHammer.errHead ++ m) ∧
    (MyHammer.profile_myhammer url env).storeAfter = env.store ∧
    (MyHammer.profile_myhammer url env).fetchInvoked = true := by
  unfold MyHammer.profile_myhammer
  rw [hcl]
  unfold MyHammer.scrapeAndCache
  rw [hkey, hfetch, hwrite]
  simp

theorem cache_write_failure_propagates_500_witness :
    (MyHammer.profile_myhammer "v"
      { store := some { timestamp := 3, data := [] }
        readFails := true
        writeFailMsg := some "disk full"
        now := 9
        apiKeyPresent := true
        fetch := .ok [] }).result =
      .httpError 500 (MyHammer.errHead ++ "disk full") ∧
    (MyHammer.profile_myhammer "v"
      { store := some { timestamp := 3, data := [] }
        readFails := true
        writeFailMsg := some "disk full"
        now := 9
        apiKeyPresent := true
        fetch := .ok [] }).storeAfter = some { timestamp := 3, data := [] } ∧
    (MyHammer.profile_myhammer "v"
      { store := some { timestamp := 3, data := [] }
        readFails := true
        writeFailMsg := some "disk full"
        now := 9
        apiKeyPresent := true
        fetch := .ok [] }).fetchInvoked = true :=
  cache_write_failure_propagates_500 "v" _ [] "disk full" rfl rfl rfl rfl

namespace MyHammer

/-- Helper (inversion): a call that performed the fetch and returned 200
must have found a successful fetch with a non-empty dataset and a
successful write; it stored the dataset under its own timestamp and its
response `data` is built from the first dataset item. -/
theorem scrape_success_inversion (url : String) (env : Env)
    (r : ScrapeResponse)
    (hr : (scrapeAndCache url env).result = .success r) :
    ∃ item rest, env.fetch = .ok (item :: rest) ∧ env.writeFailMsg = none ∧
      (scrapeAndCache url env).storeAfter =
        some { timestamp := env.now, data := item :: rest } ∧
      r.data = [mkProfile url item] := by
  unfold scrapeAndCache at hr ⊢
  by_cases hkey : env.apiKeyPresent = false
  · rw [if_pos hkey] at hr
    exact absurd hr (by simp)
  · rw [if_neg hkey] at hr ⊢
    revert hr
    cases hfetch : env.fetch with
    | error m =>
      intro hr
      exact absurd hr (by simp)
    | ok items =>
      intro hr
      revert hr
      cases hw : env.writeFailMsg with
      | some m =>
        intro hr
        exact absurd hr (by simp)
      | none =>
        intro hr
        cases items with
        | nil => exact absurd hr (by simp)
        | cons item rest =>
          refine ⟨item, rest, rfl, rfl, by simp, ?_⟩
          have hresp := HandlerResult.success.inj hr
          rw [← hresp]

theorem success_fetch_inversion (url : String) (env : Env)
    (r : ScrapeResponse)
    (hr : (profile_myhammer url env).result = .success r)
    (hf : (profile_myhammer url env).fetchInvoked = true) :
    ∃ item rest, env.fetch = .ok (item :: rest) ∧ env.writeFailMsg = none ∧
      (profile_myhammer url env).storeAfter =
        some { timestamp := env.now, data := item :: rest } ∧
      r.data = [mkProfile url item] := by
  unfold profile_myhammer at hr hf ⊢
  revert hr hf
  cases hcl : cacheLookup url env with
  | some q =>
    intro hr hf
    exact absurd hf (by simp)
  | none =>
    intro hr hf
    exact scrape_success_inversion url env r hr

end MyHammer

/-- C3: a call immediately following a successful fresh fetch for the same
key (and the same request URL), within the 24-hour window and with a
working cache read, does not invoke the upstream fetch again, and its
response `data` payload is identical to the response `data` of the first call
— the cache stores the dataset verbatim and both paths build the
`ScrapedProfile` list from the same first item.  (The `message` field and
the pagination `total_reviews` field can differ between the two paths; the
claim speaks of the payload.) -/
theorem cache_hit_skips_fetch_same_payload (url : String)
    (env1 env2 : MyHammer.Env) (r1 : MyHammer.ScrapeResponse)
    (h1r : (MyHammer.profile_myhammer url env1).result = .success r1)
    (h1f : (MyHammer.profile_myhammer url env1).fetchInvoked = true)
    (hstore2 : env2.store = (MyHammer.profile_myhammer url env1).storeAfter)
    (hread2 : env2.readFails = false)
    (hfresh : env2.now - env1.now < MyHammer.ttlSeconds) :
    (MyHammer.profile_myhammer url env2).fetchInvoked = false ∧
    MyHammer.resultData (MyHammer.profile_myhammer url env2).result =
      some r1.data := by
  obtain ⟨item, rest, hfetch1, hw1, hsa, hdata⟩ :=
    MyHammer.success_fetch_inversion url env1 r1 h1r h1f
  rw [hsa] at hstore2
  have hcl2 : ∃ resp, MyHammer.cacheLookup url env2 = some resp ∧
      resp.data = [MyHammer.mkProfile url item] := by
    unfold MyHammer.cacheLookup
    rw [hread2, hstore2]
    dsimp only
    rw [if_pos hfresh]
    exact ⟨_, rfl, rfl⟩
  obtain ⟨resp, hcl2eq, hrespdata⟩ := hcl2
  unfold MyHammer.profile_myhammer
  rw [hcl2eq]
  refine ⟨rfl, ?_⟩
  dsimp only [MyHammer.resultData]
  rw [hrespdata, hdata]

theorem cache_hit_skips_fetch_same_payload_witness :
    (MyHammer.profile_myhammer "u"
      { store := none, readFails := false, writeFailMsg := none
        now := 100, apiKeyPresent := true
        fetch := .ok [{ url := some "u", average_score := some 5
                        total_reviews := some 10, reviews := ["nice"] }] }).result =
      .success { data := [{ url := "u", average_score := some 5
                            total_reviews := some 10, reviews := ["nice"] }]
                 message := "Data scraped successfully."
                 pagination := { current_page := 1, has_next_page := false
                                 total_pages := some 1, total_reviews := some 10 } } ∧
    (MyHammer.profile_myhammer "u"
      { store := none, readFails := false, writeFailMsg := none
        now := 100, apiKeyPresent := true
        fetch := .ok [{ url := some "u", average_score := some 5
                        total_reviews := some 10, reviews := ["nice"] }] }).fetchInvoked
      = true ∧
    (MyHammer.profile_myhammer "u"
      { store := some { timestamp := 100
                        data := [{ url := some "u", average_score := some 5
                                   total_reviews := some 10, reviews := ["nice"] }] }
        readFails := false, writeFailMsg := none
        now := 50000, apiKeyPresent := false
        fetch := .error "must not run" }).fetchInvoked = false ∧
    MyHammer.resultData
      (MyHammer.profile_myhammer "u"
        { store := some { timestamp := 100
                          data := [{ url := some "u", average_score := some 5
                                     total_reviews := some 10, reviews := ["nice"] }] }
          readFails := false, writeFailMsg := none
          now := 50000, apiKeyPresent := false
          fetch := .error "must not run" }).result =
      some [{ url := "u", average_score := some 5
              total_reviews := some 10, reviews := ["nice"] }] := by
  refine ⟨by decide, by decide, ?_, ?_⟩
  · exact (cache_hit_skips_fetch_same_payload "u"
      { store := none, readFails := false, writeFailMsg := none
        now := 100, apiKeyPresent := true
        fetch := .ok [{ url := some "u", average_score := some 5
                        total_reviews := some 10, reviews := ["nice"] }] }
      { store := some { timestamp := 100
                        data := [{ url := some "u", average_score := some 5
                                   total_reviews := some 10, reviews := ["nice"] }] }
        readFails := false, writeFailMsg := none
        now := 50000, apiKeyPresent := false
        fetch := .error "must not run" }
      { data := [{ url := "u", average_score := some 5
                   total_reviews := some 10, reviews := ["nice"] }]
        message := "Data scraped successfully."
        pagination := { current_page := 1, has_next_page := false
                        total_pages := some 1, total_reviews := some 10 } }
      (by decide) (by decide) (by decide) rfl (by decide)).1
  · exact (cache_hit_skips_fetch_same_payload "u"
      { store := none, readFails := false, writeFailMsg := none
        now := 100, apiKeyPresent := true
        fetch := .ok [{ url := some "u", average_score := some 5
                        total_reviews := some 10, reviews := ["nice"] }] }
      { store := some { timestamp := 100
                        data := [{ url := some "u", average_score := some 5
                                   total_reviews := some 10, reviews := ["nice"] }] }
        readFails := false, writeFailMsg := none
        now := 50000, apiKeyPresent := false
        fetch := .error "must not run" }
      { data := [{ url := "u", average_score := some 5
                   total_reviews := some 10, reviews := ["nice"] }]
        message := "Data scraped successfully."
        pagination := { current_page := 1, has_next_page := false
                        total_pages := some 1, total_reviews := some 10 } }
      (by decide) (by decide) (by decide) rfl (by decide)).2

namespace SingleFlightEv

/-- Control point of one caller inside the wrapper, full model.
`waitingLock l`: the caller ran the lock-existence check, bound the lock
OBJECT `l` that the dict held at that moment, and is suspended in
`acquire` (it keeps waiting on that object even if the dict entry is
evicted later).  `awaitingOwn l f`: registered future `f` and suspended on
`await request_future`, holding lock object `l`.  `awaitingShared l f`:
found future `f` already registered and suspended on
`return await _ongoing_requests[cache_key]`, holding lock object `l`. -/
inductive TaskPC
  | start
  | waitingLock (l : Nat)
  | awaitingOwn (l f : Nat)
  | awaitingShared (l f : Nat)
  | done (o : SingleFlight.Outcome)
deriving DecidableEq, Repr

/-- Global state of the full model: the control point of each caller, the
`_request_locks` dict as an insertion-ordered association list of
(RequestKey, lock object id) with the NEWEST entry first (so Python
`keys()[:-500]` eviction is `take 500`), whether each lock object is held,
the `_ongoing_requests` map, the number of lock objects ever created, the
number of invocations of the wrapped coroutine so far, and which of those
invocations have finished. -/
@[ext]
structure EvState where
  task : Nat → TaskPC
  locks : List (Nat × Nat)
  lockBusy : Nat → Bool
  ongoing : Nat → Option Nat
  lockCount : Nat
  futCount : Nat
  futDone : Nat → Bool

/-- Dict lookup in the association-list representation of
`_request_locks`. -/
def lookupKey : List (Nat × Nat) → Nat → Option Nat
  | [], _ => none
  | (k', l) :: rest, k => if k' = k then some l else lookupKey rest k

/-- The critical section body that runs atomically as soon as a caller
holds the lock (lines 31-37 contain no `await`): either find a registered
entry and suspend on that shared future, or create the invocation task,
register it, and suspend on it. -/
def enterCrit (keyOf : Nat → Nat) (s : EvState) (t l : Nat) : EvState :=
  match s.ongoing (keyOf t) with
  | some f =>
      { s with lockBusy := Function.update s.lockBusy l true
               task := Function.update s.task t (.awaitingShared l f) }
  | none =>
      { s with lockBusy := Function.update s.lockBusy l true
               ongoing := Function.update s.ongoing (keyOf t) (some s.futCount)
               futCount := s.futCount + 1
               task := Function.update s.task t (.awaitingOwn l s.futCount) }

/-- Scheduler events of the full model.  `startTask t`: the wrapper of
caller `t` begins: it runs the lock-existence check and creation
(lines 25-26), binds the lock object the dict now holds, and — since an
uncontended `asyncio.Lock.acquire` returns without suspending — enters the
critical section at once if that object is free, else suspends on it.
`acquireLock t`: a suspended caller is granted the (now free) object it
waits on and runs the critical section in the same atomic block.
`completeFuture f`: the invocation behind future `f` finishes.
`resumeOwn t`: the registrant resumes after its future completed: its
`finally` pops the in-flight entry and then runs the lock-eviction code
(lines 45-50: if the dict exceeds 1000 entries, keep only the newest 500),
and the `async with` releases its lock object.  `resumeShared t`: a
sharing caller resumes; the sharing branch has NO `finally`, so it pops
nothing and only releases its lock object. -/
inductive Action
  | startTask (t : Nat)
  | acquireLock (t : Nat)
  | completeFuture (f : Nat)
  | resumeOwn (t : Nat)
  | resumeShared (t : Nat)
deriving DecidableEq, Repr

/-- One scheduler event of the full model; a disabled event leaves the
state unchanged.  `oracle f` is the outcome of invocation `f`; `keyOf t`
is the RequestKey of caller `t` (derived from its request). -/
def step (oracle : Nat → SingleFlight.Outcome) (keyOf : Nat → Nat)
    (s : EvState) (a : Action) : EvState :=
  match a with
  | .startTask t =>
    match s.task t with
    | .start =>
      match lookupKey s.locks (keyOf t) with
      | some l =>
          if s.lockBusy l = false then enterCrit keyOf s t l
          else { s with task := Function.update s.task t (.waitingLock l) }
      | none =>
          enterCrit keyOf
            { s with locks := (keyOf t, s.lockCount) :: s.locks
                     lockCount := s.lockCount + 1 } t s.lockCount
    | _ => s
  | .acquireLock t =>
    match s.task t with
    | .waitingLock l =>
        if s.lockBusy l = false then enterCrit keyOf s t l else s
    | _ => s
  | .completeFuture f =>
      if f < s.futCount ∧ s.futDone f = false then
        { s with futDone := Function.update s.futDone f true }
      else s
  | .resumeOwn t =>
    match s.task t with
    | .awaitingOwn l f =>
      if s.futDone f = true then
        { s with ongoing := Function.update s.ongoing (keyOf t) none
                 locks := if 1000 < s.locks.length then s.locks.take 500 else s.locks
                 lockBusy := Function.update s.lockBusy l false
                 task := Function.update s.task t (.done (oracle f)) }
      else s
    | _ => s
  | .resumeShared t =>
    match s.task t with
    | .awaitingShared l f =>
      if s.futDone f = true then
        { s with lockBusy := Function.update s.lockBusy l false
                 task := Function.update s.task t (.done (oracle f)) }
      else s
    | _ => s

/-- No call has started; the dict is empty. -/
def initState : EvState :=
  { task := fun _ => .start, locks := [], lockBusy := fun _ => false,
    ongoing := fun _ => none, lockCount := 0, futCount := 0,
    futDone := fun _ => false }

/-- State after a finite schedule of events, full model. -/
def runActions (oracle : Nat → SingleFlight.Outcome) (keyOf : Nat → Nat)
    (acts : List Action) : EvState :=
  acts.foldl (step oracle keyOf) initState

/-- Key assignment for the eviction schedule: callers 0, 1001 and 1002
share RequestKey 0; fillers 1..1000 each use their own key. -/
def cexKeyOf : Nat → Nat := fun t => if 1001 ≤ t then 0 else t
/-- Outcome oracle for the eviction schedule: invocation `f` returns
`ok f`. -/
def cexOracle : Nat → SingleFlight.Outcome := fun f => .ok f

/-- Filler phase of the eviction schedule: caller 0 starts (registers
invocation 0 for key 0 and suspends holding the key-0 lock), then callers
1..n start for n further keys, each registering its own invocation. -/
def prefixTrace (n : Nat) : List Action :=
  [.startTask 0] ++ ((List.range n).map (fun i => .startTask (i + 1)))

/-- Tail of the eviction schedule: invocation 1 finishes and caller 1
resumes — its `finally` finds 1001 lock entries and evicts all but the
newest 500, dropping the held key-0 lock.  Caller 1001 (key 0) then starts:
it re-creates the key-0 lock, acquires it without suspending, finds the
still-registered entry of caller 0 and awaits it; invocation 0 finishes
and caller 1001 returns.  Caller 1002 (key 0) then starts and likewise
awaits the still-registered shared future. -/
def cexSuffix : List Action :=
  [.completeFuture 1, .resumeOwn 1,
   .startTask 1001, .completeFuture 0, .resumeShared 1001,
   .startTask 1002, .resumeShared 1002]

/-- The complete eviction schedule. -/
def cexTrace : List Action := prefixTrace 1000 ++ cexSuffix

/-- Closed form of the dict after the filler phase:
`[(n, n), ..., (1, 1), (0, 0)]`, newest first (defined via `Nat.rec` so
the kernel can evaluate it iteratively). -/
def descPairs (n : Nat) : List (Nat × Nat) :=
  Nat.rec [(0, 0)] (fun m acc => (m + 1, m + 1) :: acc) n

/-- Closed form of the full state after `prefixTrace n` (for n ≤ 1000):
callers 0..n are each suspended on their own registered invocation,
holding their own lock; n+1 lock objects and n+1 invocations exist; no
invocation has finished. -/
def phaseState (n : Nat) : EvState :=
  { task := fun t => if t ≤ n then .awaitingOwn t t else .start
    locks := descPairs n
    lockBusy := fun l => decide (l ≤ n)
    ongoing := fun k => if k ≤ n then some k else none
    lockCount := n + 1
    futCount := n + 1
    futDone := fun _ => false }

/-- Dict lookup in the filler-phase dict finds exactly the keys 0..n. -/
theorem lookupKey_descPairs (n k : Nat) :
    lookupKey (descPairs n) k = if k ≤ n then some k else none := by
  induction n with
  | zero =>
    show (if 0 = k then some 0 else lookupKey [] k) = _
    by_cases h : k = 0
    · subst h; rfl
    · rw [if_neg (fun he => h he.symm), if_neg (by omega)]
      rfl
  | succ n ih =>
    show (if n + 1 = k then some (n + 1) else lookupKey (descPairs n) k) = _
    by_cases h : k = n + 1
    · subst h
      rw [if_pos rfl, if_pos (by omega)]
    · rw [if_neg (fun he => h he.symm), ih]
      by_cases h2 : k ≤ n
      · rw [if_pos h2, if_pos (by omega)]
      · rw [if_neg h2, if_neg (by omega)]

/-- One filler start step advances the closed form. -/
theorem phase_startTask (n : Nat) (hn : n + 1 ≤ 1000) :
    step cexOracle cexKeyOf (phaseState n) (.startTask (n + 1)) = phaseState (n + 1) := by
  have hkey : cexKeyOf (n + 1) = n + 1 := if_neg (by omega)
  have h1 : (phaseState n).task (n + 1) = .start := if_neg (by omega)
  have h2 : lookupKey (phaseState n).locks (cexKeyOf (n + 1)) = none := by
    show lookupKey (descPairs n) (cexKeyOf (n + 1)) = none
    rw [hkey, lookupKey_descPairs, if_neg (by omega)]
  have h3 : (phaseState n).ongoing (cexKeyOf (n + 1)) = none := by
    show (if cexKeyOf (n + 1) ≤ n then some (cexKeyOf (n + 1)) else none) = none
    rw [hkey, if_neg (by omega)]
  simp only [step]
  rw [h1]
  dsimp only
  rw [h2]
  dsimp only
  unfold enterCrit
  dsimp only
  rw [h3]
  dsimp only
  rw [hkey]
  have hcount : (phaseState n).lockCount = n + 1 := rfl
  have hfut : (phaseState n).futCount = n + 1 := rfl
  rw [hcount, hfut]
  refine EvState.ext ?_ ?_ ?_ ?_ ?_ ?_ ?_
  · funext t
    show Function.update (phaseState n).task (n + 1) (.awaitingOwn (n + 1) (n + 1)) t
      = (phaseState (n + 1)).task t
    by_cases ht : t = n + 1
    · subst ht
      rw [Function.update_same]
      show _ = (if n + 1 ≤ n + 1 then TaskPC.awaitingOwn (n + 1) (n + 1) else .start)
      rw [if_pos (by omega)]
    · rw [Function.update_noteq ht]
      show (if t ≤ n then TaskPC.awaitingOwn t t else .start)
        = (if t ≤ n + 1 then TaskPC.awaitingOwn t t else .start)
      by_cases h4 : t ≤ n
      · rw [if_pos h4, if_pos (by omega)]
      · rw [if_neg h4, if_neg (by omega)]
  · show (n + 1, n + 1) :: (phaseState n).locks = (phaseState (n + 1)).locks
    rfl
  · funext l
    show Function.update (phaseState n).lockBusy (n + 1) true l = decide (l ≤ n + 1)
    by_cases hl : l = n + 1
    · subst hl
      rw [Function.update_same]
      exact (decide_eq_true (by omega)).symm
    · rw [Function.update_noteq hl]
      show decide (l ≤ n) = decide (l ≤ n + 1)
      exact decide_eq_decide.mpr (by constructor <;> omega)
  · funext k
    show Function.update (phaseState n).ongoing (n + 1) (some (n + 1)) k
      = (if k ≤ n + 1 then some k else none)
    by_cases hk : k = n + 1
    · subst hk
      rw [Function.update_same, if_pos (by omega)]
    · rw [Function.update_noteq hk]
      show (if k ≤ n then some k else none) = (if k ≤ n + 1 then some k else none)
      by_cases h4 : k ≤ n
      · rw [if_pos h4, if_pos (by omega)]
      · rw [if_neg h4, if_neg (by omega)]
  · rfl
  · rfl
  · rfl

/-- The filler phase reaches the closed-form state. -/
theorem phase_run (n : Nat) (hn : n ≤ 1000) :
    runActions cexOracle cexKeyOf (prefixTrace n) = phaseState n := by
  induction n with
  | zero =>
    have hstep : runActions cexOracle cexKeyOf (prefixTrace 0) =
        { task := Function.update (fun _ => TaskPC.start) 0 (.awaitingOwn 0 0)
          locks := [(0, 0)]
          lockBusy := Function.update (fun _ => false) 0 true
          ongoing := Function.update (fun _ => none) 0 (some 0)
          lockCount := 1, futCount := 1, futDone := fun _ => false } := rfl
    rw [hstep]
    refine EvState.ext ?_ ?_ ?_ ?_ ?_ ?_ ?_
    · funext t
      show Function.update (fun _ => TaskPC.start) 0 (.awaitingOwn 0 0) t
        = (phaseState 0).task t
      by_cases ht : t = 0
      · subst ht
        rw [Function.update_same]
        show _ = (if (0 : Nat) ≤ 0 then TaskPC.awaitingOwn 0 0 else .start)
        rw [if_pos (by omega)]
      · rw [Function.update_noteq ht]
        show TaskPC.start = (if t ≤ 0 then TaskPC.awaitingOwn t t else .start)
        rw [if_neg (by omega)]
    · rfl
    · funext l
      show Function.update (fun _ => false) 0 true l = decide (l ≤ 0)
      by_cases hl : l = 0
      · subst hl
        rw [Function.update_same]
        exact (decide_eq_true (by omega)).symm
      · rw [Function.update_noteq hl]
        exact (decide_eq_false (by omega)).symm
    · funext k
      show Function.update (fun _ => none) 0 (some 0) k
        = (if k ≤ 0 then some k else none)
      by_cases hk : k = 0
      · subst hk
        rw [Function.update_same, if_pos (by omega)]
      · rw [Function.update_noteq hk]
        show none = (if k ≤ 0 then some k else none)
        rw [if_neg (by omega)]
    · rfl
    · rfl
    · rfl
  | succ n ih =>
    have hsplit : prefixTrace (n + 1) = prefixTrace n ++ [.startTask (n + 1)] := by
      unfold prefixTrace
      rw [List.range_succ, List.map_append]
      rfl
    rw [hsplit]
    show List.foldl _ initState (prefixTrace n ++ [.startTask (n + 1)]) = _
    rw [List.foldl_append]
    have hpre := ih (by omega)
    unfold runActions at hpre
    rw [hpre]
    show step cexOracle cexKeyOf (phaseState n) (.startTask (n + 1)) = _
    exact phase_startTask n (by omega)

set_option maxRecDepth 40000 in
/-- C5 counterexample: with the lock-eviction branch (api_utils.py lines
45-50) in the model, the claim fails.  In the schedule `cexTrace`, caller 0
(key 0) registers invocation 0 and suspends holding the key-0 lock; 1000
further keys fill `_request_locks` to 1001 entries; caller 1 completes and
its `finally` evicts the held key-0 lock.  Caller 1001 (key 0) re-creates
the lock, acquires it at once, finds the still-registered entry and awaits
it; after invocation 0 completes, caller 1001 returns.  The final state
shows: caller 1001 has completed while the InFlightOperation entry for its
RequestKey is STILL registered (the sharing branch pops nothing), and the
subsequent caller 1002 also completed by awaiting that same shared
operation rather than starting a fresh invocation (`futCount` is still
1001) — refuting both halves of the claim. -/
theorem cleanup_on_completion_counterexample :
    (runActions cexOracle cexKeyOf cexTrace).task 1001 = .done (.ok 0) ∧
    (runActions cexOracle cexKeyOf cexTrace).ongoing 0 = some 0 ∧
    (runActions cexOracle cexKeyOf cexTrace).task 1002 = .done (.ok 0) ∧
    (runActions cexOracle cexKeyOf cexTrace).futCount = 1001 := by
  have hpre := phase_run 1000 (by omega)
  unfold runActions at hpre
  have h : runActions cexOracle cexKeyOf cexTrace =
      List.foldl (step cexOracle cexKeyOf) (phaseState 1000) cexSuffix := by
    show List.foldl _ initState (prefixTrace 1000 ++ cexSuffix) = _
    rw [List.foldl_append, hpre]
  rw [h]
  decide

/-- A registered `_ongoing_requests` entry always belongs to a caller
that is still suspended on that very invocation: the in-flight entry of a
key never outlives the call that registered it. -/
def RegistrantLive (keyOf : Nat → Nat) (s : EvState) : Prop :=
  ∀ k f, s.ongoing k = some f →
    ∃ t l, keyOf t = k ∧ s.task t = .awaitingOwn l f

/-- The critical-section body preserves `RegistrantLive`, provided the
entering caller was not itself awaiting an own invocation. -/
theorem registrantLive_enterCrit (keyOf : Nat → Nat) (s : EvState) (t l : Nat)
    (h : RegistrantLive keyOf s)
    (ht : ∀ l' f', s.task t ≠ .awaitingOwn l' f') :
    RegistrantLive keyOf (enterCrit keyOf s t l) := by
  unfold enterCrit
  cases hong : s.ongoing (keyOf t) with
  | some f0 =>
    intro k f hk
    dsimp only at hk
    obtain ⟨t', l', hkey, hpc⟩ := h k f hk
    have hne : t' ≠ t := fun he => ht l' f (he ▸ hpc)
    exact ⟨t', l', hkey, by dsimp only; rw [Function.update_noteq hne]; exact hpc⟩
  | none =>
    intro k f hk
    dsimp only at hk
    by_cases hke : k = keyOf t
    · subst hke
      rw [Function.update_same] at hk
      injection hk with hk
      refine ⟨t, l, rfl, ?_⟩
      dsimp only
      rw [Function.update_same, hk]
    · rw [Function.update_noteq hke] at hk
      obtain ⟨t', l', hkey, hpc⟩ := h k f hk
      have hne : t' ≠ t := fun he => hke (he ▸ hkey).symm
      exact ⟨t', l', hkey, by dsimp only; rw [Function.update_noteq hne]; exact hpc⟩

/-- Every scheduler event of the full model — eviction included —
preserves `RegistrantLive`: only the registrant pops its entry, and it
does so in the same atomic block in which it completes. -/
theorem registrantLive_step (oracle : Nat → SingleFlight.Outcome) (keyOf : Nat → Nat)
    (s : EvState) (a : Action) (h : RegistrantLive keyOf s) :
    RegistrantLive keyOf (step oracle keyOf s a) := by
  cases a with
  | startTask t =>
    simp only [step]
    cases hpc : s.task t with
    | start =>
      dsimp only
      cases hl : lookupKey s.locks (keyOf t) with
      | some l =>
        dsimp only
        by_cases hb : s.lockBusy l = false
        · rw [if_pos hb]
          exact registrantLive_enterCrit keyOf s t l h
            (fun l' f' hc => by rw [hpc] at hc; exact TaskPC.noConfusion hc)
        · rw [if_neg hb]
          intro k f hk
          dsimp only at hk
          obtain ⟨t', l', hkey, hpci⟩ := h k f hk
          have hne : t' ≠ t := fun he => by
            rw [he, hpc] at hpci
            exact TaskPC.noConfusion hpci
          exact ⟨t', l', hkey,
            by dsimp only; rw [Function.update_noteq hne]; exact hpci⟩
      | none =>
        dsimp only
        exact registrantLive_enterCrit keyOf _ t _
          (fun k f hk => h k f hk)
          (fun l' f' hc => by
            rw [show ({ s with locks := (keyOf t, s.lockCount) :: s.locks
                               lockCount := s.lockCount + 1 } : EvState).task = s.task
                  from rfl, hpc] at hc
            exact TaskPC.noConfusion hc)
    | waitingLock l => exact h
    | awaitingOwn l f => exact h
    | awaitingShared l f => exact h
    | done o => exact h
  | acquireLock t =>
    simp only [step]
    cases hpc : s.task t with
    | waitingLock l =>
      dsimp only
      by_cases hb : s.lockBusy l = false
      · rw [if_pos hb]
        exact registrantLive_enterCrit keyOf s t l h
          (fun l' f' hc => by rw [hpc] at hc; exact TaskPC.noConfusion hc)
      · rw [if_neg hb]; exact h
    | start => exact h
    | awaitingOwn l f => exact h
    | awaitingShared l f => exact h
    | done o => exact h
  | completeFuture f =>
    simp only [step]
    by_cases hc : f < s.futCount ∧ s.futDone f = false
    · rw [if_pos hc]
      exact fun k f' hk => h k f' hk
    · rw [if_neg hc]; exact h
  | resumeOwn t =>
    simp only [step]
    cases hpc : s.task t with
    | awaitingOwn l f =>
      dsimp only
      by_cases hd : s.futDone f = true
      · rw [if_pos hd]
        intro k f' hk
        dsimp only at hk
        by_cases hke : k = keyOf t
        · subst hke
          rw [Function.update_same] at hk
          exact Option.noConfusion hk
        · rw [Function.update_noteq hke] at hk
          obtain ⟨t', l', hkey, hpci⟩ := h k f' hk
          have hne : t' ≠ t := fun he => hke (he ▸ hkey).symm
          exact ⟨t', l', hkey,
            by dsimp only; rw [Function.update_noteq hne]; exact hpci⟩
      · rw [if_neg hd]; exact h
    | start => exact h
    | waitingLock l => exact h
    | awaitingShared l f => exact h
    | done o => exact h
  | resumeShared t =>
    simp only [step]
    cases hpc : s.task t with
    | awaitingShared l f =>
      dsimp only
      by_cases hd : s.futDone f = true
      · rw [if_pos hd]
        intro k f' hk
        dsimp only at hk
        obtain ⟨t', l', hkey, hpci⟩ := h k f' hk
        have hne : t' ≠ t := fun he => by
          rw [he, hpc] at hpci
          exact TaskPC.noConfusion hpci
        exact ⟨t', l', hkey,
          by dsimp only; rw [Function.update_noteq hne]; exact hpci⟩
      · rw [if_neg hd]; exact h
    | start => exact h
    | waitingLock l => exact h
    | awaitingOwn l f => exact h
    | done o => exact h

/-- The initial state has no registered entries. -/
theorem registrantLive_init (keyOf : Nat → Nat) : RegistrantLive keyOf initState :=
  fun _ _ hk => Option.noConfusion hk

/-- `RegistrantLive` holds in every reachable state of the full model. -/
theorem registrantLive_run (oracle : Nat → SingleFlight.Outcome) (keyOf : Nat → Nat)
    (acts : List Action) : RegistrantLive keyOf (runActions oracle keyOf acts) := by
  have haux : ∀ s, RegistrantLive keyOf s →
      RegistrantLive keyOf (acts.foldl (step oracle keyOf) s) := by
    induction acts with
    | nil => exact fun s hs => hs
    | cons a as ih => exact fun s hs => ih _ (registrantLive_step oracle keyOf s a hs)
  exact haux initState (registrantLive_init keyOf)

/-- C5 (amended): an InFlightOperation entry never outlives the call that
REGISTERED it — in every reachable state of the full semantics (lock
objects and eviction included), a registered entry belongs to a caller
still suspended on that same invocation, so after the registering call
completes, no entry remains for its key.  (A sharing call, reachable once
lock eviction has dropped the key lock, can complete while the entry of
the registrant is still registered, and a subsequent call then awaits that
shared operation; see the counterexample.) -/
theorem inflight_entry_never_outlives_registrant (oracle : Nat → SingleFlight.Outcome) (keyOf : Nat → Nat)
    (acts : List Action) (k f : Nat)
    (hong : (runActions oracle keyOf acts).ongoing k = some f) :
    ∃ t l, keyOf t = k ∧
      (runActions oracle keyOf acts).task t = .awaitingOwn l f :=
  registrantLive_run oracle keyOf acts k f hong

theorem inflight_entry_never_outlives_registrant_witness :
    (runActions (fun _ => .ok 0) (fun t => t) [.startTask 0]).ongoing 0 = some 0 ∧
    ∃ t l, (fun t => t) t = 0 ∧
      (runActions (fun _ => .ok 0) (fun t => t) [.startTask 0]).task t
        = .awaitingOwn l 0 :=
  ⟨by decide, inflight_entry_never_outlives_registrant (fun _ => .ok 0) (fun t => t) [.startTask 0] 0 0 (by decide)⟩

end SingleFlightEv

